import Mathlib

/-!
Verification development for the `rust-lambda-api-poc` repository
(`src/main.rs`): an axum HTTP service with one user-lookup route,
plus utoipa/Scalar API documentation served at `/api`.

The Rust source is shallowly embedded below: 128-bit UUIDs are
naturals below 2^128, the handler is a pure function from the parsed
path identifier to an HTTP response value, and the library calls the
source makes (the string parser of the `uuid` crate, `serde_json`
serialization of the `User` struct, the `IntoResponse` conversion of axum for
`(StatusCode, String)`, the path matching of the router, and
the HTML substitution of utoipa-scalar) are embedded from their documented
semantics at the points where `main.rs` invokes them.
-/

namespace RustLambdaApiPoc

/-! Section: UUID values and their canonical text form.

A `uuid::Uuid` is a 128-bit value; we embed it as a `Nat` (with the
bound `< 2 ^ 128` carried as a hypothesis where it matters).
`Uuid::nil()` is `0`.
-/

/-- Value of an ASCII hex digit, as accepted by the `HEX_TABLE` of the `uuid` crate (digits, lowercase and uppercase letters). -/
def hexVal (c : Char) : Option Nat :=
  if '0' ≤ c ∧ c ≤ '9' then some (c.toNat - '0'.toNat)
  else if 'a' ≤ c ∧ c ≤ 'f' then some (c.toNat - 'a'.toNat + 10)
  else if 'A' ≤ c ∧ c ≤ 'F' then some (c.toNat - 'A'.toNat + 10)
  else none

/-- Lowercase hex digit character for a nibble value, as produced by
the lowercase encoding of the `uuid` crate (used by its `serde` impl). -/
def hexDigitChar (d : Nat) : Char :=
  if d < 10 then Char.ofNat ('0'.toNat + d) else Char.ofNat ('a'.toNat + (d - 10))

/-- The `k` base-16 digits of `n mod 16 ^ k`, most significant first. -/
def toNibbles : Nat → Nat → List Nat
  | 0, _ => []
  | k + 1, n => toNibbles k (n / 16) ++ [n % 16]

/-- The 32 hex digit characters of a 128-bit value, most significant
first, zero padded, lowercase. -/
def uuidDigits (n : Nat) : List Char :=
  (toNibbles 32 n).map hexDigitChar

/-- Group a 32-character digit list as 8-4-4-4-12 with hyphens, the
canonical hyphenated UUID layout. -/
def insertHyphens (ds : List Char) : List Char :=
  ds.take 8 ++ '-' ::
    ((ds.drop 8).take 4 ++ '-' ::
      (((ds.drop 8).drop 4).take 4 ++ '-' ::
        ((((ds.drop 8).drop 4).drop 4).take 4 ++ '-' ::
          (((ds.drop 8).drop 4).drop 4).drop 4)))

/-- Canonical hyphenated lowercase rendering of a UUID value: what the `Serialize` impl of the
`uuid` crate writes (and what `serde_json` then
embeds as a JSON string) for the `uuid` field at `main.rs:68`. -/
def uuidToString (n : Nat) : String :=
  String.mk (insertHyphens (uuidDigits n))

/-- Fold a run of hex digit characters into a value, most significant
first; fails on the first non-hex character. This is the accumulation
both `parse_simple` and `parse_hyphenated` in the `uuid` crate
perform over the digit positions. -/
def parseHexDigits : List Char → Nat → Option Nat
  | [], acc => some acc
  | c :: cs, acc =>
    match hexVal c with
    | some d => parseHexDigits cs (acc * 16 + d)
    | none => none

/-- Function `parse_hyphenated` of the `uuid` crate: exactly 36 characters with
hyphens at positions 8, 13, 18 and 23 and hex digits elsewhere. -/
def parseHyphenated (cs : List Char) : Option Nat :=
  if cs.length = 36 then
    match cs.drop 8 with
    | '-' :: r1 =>
      match r1.drop 4 with
      | '-' :: r2 =>
        match r2.drop 4 with
        | '-' :: r3 =>
          match r3.drop 4 with
          | '-' :: r4 =>
            parseHexDigits (cs.take 8 ++ (r1.take 4 ++ (r2.take 4 ++ (r3.take 4 ++ r4)))) 0
          | _ => none
        | _ => none
      | _ => none
    | _ => none
  else none

/-- Function `parse_simple` of the `uuid` crate: exactly 32 hex digits, no
hyphens. -/
def parseSimple (cs : List Char) : Option Nat :=
  if cs.length = 32 then parseHexDigits cs 0 else none

/-- Opening brace character, written by code point to keep string
literals free of stray braces. -/
def leftBrace : Char := Char.ofNat 123

/-- Closing brace character. -/
def rightBrace : Char := Char.ofNat 125

/-- Check that the first list is an initial run of the second. -/
def leadsWith : List Char → List Char → Bool
  | [], _ => true
  | _ :: _, [] => false
  | p :: ps, c :: cs => p == c && leadsWith ps cs

/-- The `try_parse` dispatch of the `uuid` crate, which the axum
`Path<Uuid>` extractor at `main.rs:63` applies to the captured path
segment: length 32 means simple form, length 36 hyphenated form,
length 38 a braced hyphenated form, length 45 a `urn:uuid:` prefixed
hyphenated form; every other length is rejected. -/
def tryParseUuid (s : String) : Option Nat :=
  let cs := s.toList
  if cs.length = 32 then parseSimple cs
  else if cs.length = 36 then parseHyphenated cs
  else if cs.length = 38 then
    match cs with
    | c :: rest =>
      if c == leftBrace && rest.getLast? == some rightBrace then
        parseHyphenated rest.dropLast
      else none
    | [] => none
  else if cs.length = 45 then
    if leadsWith "urn:uuid:".toList cs then parseHyphenated (cs.drop 9) else none
  else none

/-! Section: the `User` record and its JSON serialization.

`main.rs:15-49`: `User` derives `Serialize` with
`rename_all = "camelCase"`; `serde_json::to_string` writes the fields
in declaration order under their camel-cased names.
-/

/-- The `User` struct of `main.rs:18-49`. -/
structure User where
  uuid : Nat
  first_name : String
  last_name : String
  email : String
  enabled : Bool
  activated : Bool
  deriving DecidableEq

/-- The record built by the handler at `main.rs:67-74`: the requested
identifier plus fixed field values. -/
def mkUser (user_id : Nat) : User :=
  { uuid := user_id
    first_name := "Jane"
    last_name := "Doe"
    email := "jane.doe@example.com"
    enabled := true
    activated := true }

/-- JSON escaping of one character, as `serde_json` performs it:
quote and backslash get a backslash, control characters below 0x20
get their short escape or a `\u00..` escape, everything else is
copied verbatim. -/
def escapeChar (c : Char) : String :=
  if c = '"' then "\\\""
  else if c = '\\' then "\\\\"
  else if c.toNat < 0x20 then
    if c = Char.ofNat 8 then "\\b"
    else if c = Char.ofNat 9 then "\\t"
    else if c = Char.ofNat 10 then "\\n"
    else if c = Char.ofNat 12 then "\\f"
    else if c = Char.ofNat 13 then "\\r"
    else
      "\\u00" ++ String.mk [hexDigitChar (c.toNat / 16), hexDigitChar (c.toNat % 16)]
  else String.singleton c

/-- JSON escaping of a whole string. -/
def jsonEscape (s : String) : String :=
  String.join (s.toList.map escapeChar)

/-- A JSON string literal: quotes around the escaped contents. -/
def jsonQuote (s : String) : String :=
  "\"" ++ jsonEscape s ++ "\""

/-- A JSON boolean literal. -/
def jsonBool (b : Bool) : String :=
  if b then "true" else "false"

/-- The serialized fields of a `User`, in declaration order, under
the camel-cased names `serde(rename_all = "camelCase")` produces
(`main.rs:16`), each paired with its rendered JSON value. -/
def userJsonFields (u : User) : List (String × String) :=
  [("uuid", jsonQuote (uuidToString u.uuid)),
   ("firstName", jsonQuote u.first_name),
   ("lastName", jsonQuote u.last_name),
   ("email", jsonQuote u.email),
   ("enabled", jsonBool u.enabled),
   ("activated", jsonBool u.activated)]

/-- Render a field list as a compact JSON object, comma separated,
no whitespace, exactly as `serde_json::to_string` streams it. -/
def renderObj (fields : List (String × String)) : String :=
  String.singleton leftBrace ++
    String.intercalate "," (fields.map (fun kv => "\"" ++ kv.1 ++ "\":" ++ kv.2)) ++
    String.singleton rightBrace

/-- `serde_json::to_string(&user)` at `main.rs:75`. Serializing this
struct writes four strings and two booleans under statically known
names; none of these steps can report an error, so the call always
returns `Ok` with the rendered object. The `Except` shape mirrors the
`Result` the code matches on. -/
def serdeJsonToString (u : User) : Except String String :=
  Except.ok (renderObj (userJsonFields u))

/-! Section: HTTP responses and the handler. -/

/-- The parts of an axum HTTP response the program determines: status
code, `Content-Type` header (when one is set) and body. -/
structure Response where
  status : Nat
  contentType : Option String
  body : String
  deriving DecidableEq

/-- Content type that the axum `IntoResponse` conversion for `String`
and `&str` bodies sets; the tuple responses of the handler at `main.rs:65,76,77` all carry
it. -/
def textPlain : String := "text/plain; charset=utf-8"

/-- The `match serde_json::to_string(&user)` expression at
`main.rs:75-78`: `Ok` becomes a 200 with the serialized body, `Err`
becomes a 500 with the fixed text `"Unknown error"`. -/
def respondWithSerialized : Except String String → Response
  | Except.ok body => { status := 200, contentType := some textPlain, body := body }
  | Except.error _ => { status := 500, contentType := some textPlain, body := "Unknown error" }

/-- The handler `get_user_by_id` at `main.rs:63-79`, as a function of
the already-parsed 128-bit path identifier: the nil identifier
returns early with a 404 before any `User` is built; otherwise the
canned record is constructed and serialized. -/
def get_user_by_id (user_id : Nat) : Response :=
  if user_id = 0 then
    { status := 404, contentType := some textPlain, body := "User not found" }
  else
    respondWithSerialized (serdeJsonToString (mkUser user_id))

/-! Section: the generated OpenAPI document.

`main.rs:9-12` derives `OpenApi` for `ApiDoc` with
`openapi(paths(get_user_by_id))`; the route metadata comes from the
`utoipa::path` attribute at `main.rs:52-62` and the schema metadata
from the `ToSchema` derive and `schema(example = ...)` attributes at
`main.rs:15-49`. The model below captures the document to the extent
the annotations in `src/` determine it (the `info` section, which
utoipa fills from the crate manifest, is not in `src/` and is
omitted).
-/

/-- Wrap rendered members in braces: a JSON object. -/
def jObj (s : String) : String :=
  String.singleton leftBrace ++ s ++ String.singleton rightBrace

/-- Render a JSON array from already rendered elements. -/
def jArr (xs : List String) : String :=
  "[" ++ String.intercalate "," xs ++ "]"

/-- One declared path or operation parameter. -/
structure ParamSpec where
  name : String
  location : String
  required : Bool
  description : String
  schemaJson : String
  deriving DecidableEq

/-- The `businessId` parameter declared at `main.rs:59`: a `Uuid`
path parameter. -/
def businessIdParam : ParamSpec :=
  { name := "businessId"
    location := "path"
    required := true
    description := "Business id of the user"
    schemaJson := jObj "\"type\":\"string\",\"format\":\"uuid\"" }

/-- The `userId` parameter declared at `main.rs:60`: a `String` path
parameter. -/
def userIdParam : ParamSpec :=
  { name := "userId"
    location := "path"
    required := true
    description := "User id to get user"
    schemaJson := jObj "\"type\":\"string\"" }

/-- Render one parameter object. -/
def paramJson (p : ParamSpec) : String :=
  jObj ("\"name\":" ++ jsonQuote p.name ++
    ",\"in\":" ++ jsonQuote p.location ++
    ",\"description\":" ++ jsonQuote p.description ++
    ",\"required\":" ++ jsonBool p.required ++
    ",\"schema\":" ++ p.schemaJson)

/-- One declared response of an operation. -/
structure ResponseSpec where
  status : String
  description : String
  contentType : String
  schemaRef : String
  deriving DecidableEq

/-- Render one response member. -/
def responseJson (r : ResponseSpec) : String :=
  jsonQuote r.status ++ ":" ++
    jObj ("\"description\":" ++ jsonQuote r.description ++
      ",\"content\":" ++
        jObj (jsonQuote r.contentType ++ ":" ++
          jObj ("\"schema\":" ++ jObj ("\"$ref\":" ++ jsonQuote r.schemaRef))))

/-- One documented operation: method, documented path, parameters and
responses. -/
structure OperationSpec where
  method : String
  path : String
  summary : String
  operationId : String
  params : List ParamSpec
  responses : List ResponseSpec
  deriving DecidableEq

/-- The operation the `utoipa::path` attribute at `main.rs:52-62`
declares for `get_user_by_id`: a GET documented under the path
`/business/\x7bbusinessId\x7d/users/\x7buserId\x7d` with the two path
parameters and a 200 response whose body schema is `User` (utoipa
renders schema bodies under the `application/json` content type; the
summary is the doc comment at `main.rs:51`). -/
def userLookupOperation : OperationSpec :=
  { method := "get"
    path := "/business/\x7bbusinessId\x7d/users/\x7buserId\x7d"
    summary := "Get user account by user id"
    operationId := "get_user_by_id"
    params := [businessIdParam, userIdParam]
    responses := [{ status := "200"
                    description := "User"
                    contentType := "application/json"
                    schemaRef := "#/components/schemas/User" }] }

/-- The operations listed in `openapi(paths(get_user_by_id))` at
`main.rs:10`. -/
def apiDocOperations : List OperationSpec :=
  [userLookupOperation]

/-- Render one paths-object member from an operation. -/
def operationJson (op : OperationSpec) : String :=
  jsonQuote op.path ++ ":" ++
    jObj (jsonQuote op.method ++ ":" ++
      jObj ("\"summary\":" ++ jsonQuote op.summary ++
        ",\"operationId\":" ++ jsonQuote op.operationId ++
        ",\"parameters\":" ++ jArr (op.params.map paramJson) ++
        ",\"responses\":" ++ jObj (String.intercalate "," (op.responses.map responseJson))))

/-- One documented `User` schema property, from the doc comments and
`schema(example = ...)` attributes at `main.rs:19-48`; property names
are camel-cased because utoipa honours the serde rename. `example`
holds the rendered JSON example literal. -/
structure FieldSchema where
  name : String
  description : String
  typeJson : String
  exampleVal : String
  deriving DecidableEq

/-- The six documented `User` properties with their example values
(`main.rs:19-48`). -/
def userSchemaFields : List FieldSchema :=
  [{ name := "uuid"
     description := "Unique identifier for the user."
     typeJson := "\"type\":\"string\",\"format\":\"uuid\""
     exampleVal := jsonQuote "550e8400-e29b-41d4-a716-446655440000" },
   { name := "firstName"
     description := "First name of the user."
     typeJson := "\"type\":\"string\""
     exampleVal := jsonQuote "Jane" },
   { name := "lastName"
     description := "Last name of the user."
     typeJson := "\"type\":\"string\""
     exampleVal := jsonQuote "Doe" },
   { name := "email"
     description := "Email address of the user."
     typeJson := "\"type\":\"string\""
     exampleVal := jsonQuote "jane.doe@example.com" },
   { name := "enabled"
     description := "Whether the user\x27s account is enabled."
     typeJson := "\"type\":\"boolean\""
     exampleVal := "true" },
   { name := "activated"
     description := "Whether the user\x27s account is activated."
     typeJson := "\"type\":\"boolean\""
     exampleVal := "true" }]

/-- Render one schema property member. -/
def fieldJson (f : FieldSchema) : String :=
  jsonQuote f.name ++ ":" ++
    jObj (f.typeJson ++
      ",\"description\":" ++ jsonQuote f.description ++
      ",\"example\":" ++ f.exampleVal)

/-- Render the `User` component schema (`main.rs:15-49`). -/
def userSchemaJson : String :=
  jObj ("\"type\":\"object\"" ++
    ",\"description\":" ++ jsonQuote "Represents a user account within the business." ++
    ",\"required\":" ++ jArr (userSchemaFields.map (fun f => jsonQuote f.name)) ++
    ",\"properties\":" ++ jObj (String.intercalate "," (userSchemaFields.map fieldJson)))

/-- The JSON document `serde_json::to_string(&ApiDoc::openapi())`
produces, to the extent the annotations in `src/` determine it. -/
def openApiJson : String :=
  jObj ("\"openapi\":\"3.1.0\"" ++
    ",\"paths\":" ++ jObj (String.intercalate "," (apiDocOperations.map operationJson)) ++
    ",\"components\":" ++ jObj ("\"schemas\":" ++ jObj ("\"User\":" ++ userSchemaJson)))

/-! Section: the Scalar documentation page. -/

/-- The part of the custom HTML template at `main.rs:86-107` before
the `$spec` marker. -/
def scalarHtmlPre : String :=
  "\n<!doctype html>\n<html>\n<head>\n    <title>API</title>\n    <meta charset=\"utf-8\"/>\n    <meta\n            name=\"viewport\"\n            content=\"width=device-width, initial-scale=1\"/>\n</head>\n<body>\n\n<script\n        id=\"api-reference\"\n        data-configuration=\x27\x7b\"theme\":\"laserwave\"\x7d\x27\n        type=\"application/json\">\n    "

/-- The part of the custom HTML template at `main.rs:86-107` after
the `$spec` marker. -/
def scalarHtmlPost : String :=
  "\n</script>\n<script src=\"https://cdn.jsdelivr.net/npm/@scalar/api-reference\"></script>\n</body>\n</html>\n"

/-- The custom HTML template string of `main.rs:86-107` itself, with
its single `$spec` marker. -/
def scalarHtmlTemplate : String :=
  scalarHtmlPre ++ "$spec" ++ scalarHtmlPost

/-- The page body utoipa-scalar serves: `to_html` replaces the one
occurrence of `$spec` in the template with the OpenAPI JSON document;
the replacement is modelled by splitting the template at the
marker. -/
def scalarHtml : String :=
  scalarHtmlPre ++ openApiJson ++ scalarHtmlPost

/-- The response of the Scalar handler mounted at `/api`
(`main.rs:111-114`): utoipa-scalar responds 200 with an HTML content
type and the substituted page. -/
def scalarResponse : Response :=
  { status := 200, contentType := some "text/html; charset=utf-8", body := scalarHtml }

/-! Section: the router.

`main.rs:109-114`: the router registers `/users/\x7buser_id\x7d` and
merges the Scalar sub-router at `/api`; everything else falls through
to the default axum 404 fallback.
-/

/-- Which registered route a path (split into its segments) matches. -/
inductive RouteTarget where
  | userRoute (seg : String)
  | apiRoute
  | unmatched
  deriving DecidableEq

/-- The route table of `main.rs:109-114` applied to the segments of a
request path. -/
def routeFor : List String → RouteTarget
  | ["users", s] => RouteTarget.userRoute s
  | ["api"] => RouteTarget.apiRoute
  | _ => RouteTarget.unmatched

/-- The default axum fallback for unmatched paths: 404 with an empty
body and no content type. -/
def notFoundResponse : Response :=
  { status := 404, contentType := none, body := "" }

/-- The axum `Path<Uuid>` rejection when the captured segment does
not parse: a 400 Bad Request with a plain-text message (the message
text is abbreviated here; no property below depends on it). -/
def pathRejection : Response :=
  { status := 400, contentType := some textPlain, body := "Invalid URL" }

/-- Dispatch of a GET request by path segments: the user route parses
its captured segment as a UUID and only on success runs
`get_user_by_id`; the Scalar route serves the documentation page;
everything else gets the default 404. -/
def dispatch (segs : List String) : Response :=
  match routeFor segs with
  | RouteTarget.userRoute s =>
    match tryParseUuid s with
    | some u => get_user_by_id u
    | none => pathRejection
  | RouteTarget.apiRoute => scalarResponse
  | RouteTarget.unmatched => notFoundResponse

/-! Section: substring search, used to state properties of served text. -/

/-- Whether `pat` occurs as a contiguous run inside `l`. -/
def hasSub : List Char → List Char → Bool
  | [], pat => pat.isEmpty
  | c :: cs, pat => leadsWith pat (c :: cs) || hasSub cs pat

/-- Whether `pat` occurs as a substring of `s`. -/
def strContains (s pat : String) : Bool :=
  hasSub s.toList pat.toList

/-! Section: round-trip lemmas for the UUID codec. -/

theorem toNibbles_length (k n : Nat) : (toNibbles k n).length = k := by
  induction k generalizing n with
  | zero => rfl
  | succ k ih => simp [toNibbles, ih]

theorem toNibbles_lt (k n : Nat) : ∀ d ∈ toNibbles k n, d < 16 := by
  induction k generalizing n with
  | zero => intro d hd; simp [toNibbles] at hd
  | succ k ih =>
    intro d hd
    rw [toNibbles, List.mem_append] at hd
    rcases hd with hd | hd
    · exact ih _ d hd
    · simp at hd; omega

theorem hexVal_hexDigitChar (d : Nat) (h : d < 16) :
    hexVal (hexDigitChar d) = some d := by
  interval_cases d <;> decide

theorem parseHexDigits_map (l : List Nat) (acc : Nat) (h : ∀ d ∈ l, d < 16) :
    parseHexDigits (l.map hexDigitChar) acc =
      some (l.foldl (fun a d => a * 16 + d) acc) := by
  induction l generalizing acc with
  | nil => rfl
  | cons d l ih =>
    rw [List.map_cons, parseHexDigits, hexVal_hexDigitChar d (h d (by simp))]
    simpa using ih (acc * 16 + d) (fun x hx => h x (by simp [hx]))

theorem foldl_toNibbles (k : Nat) : ∀ n acc : Nat,
    (toNibbles k n).foldl (fun a d => a * 16 + d) acc = acc * 16 ^ k + n % 16 ^ k := by
  induction k with
  | zero => intro n acc; simp [toNibbles, Nat.mod_one]
  | succ k ih =>
    intro n acc
    rw [toNibbles, List.foldl_append, ih]
    simp only [List.foldl_cons, List.foldl_nil]
    have h : n % 16 ^ (k + 1) = n % 16 + 16 * (n / 16 % 16 ^ k) := by
      rw [pow_succ, mul_comm (16 ^ k) 16, Nat.mod_mul]
    rw [h, pow_succ]
    ring

theorem parseHexDigits_uuidDigits (n : Nat) (h : n < 2 ^ 128) :
    parseHexDigits (uuidDigits n) 0 = some n := by
  rw [uuidDigits, parseHexDigits_map _ _ (toNibbles_lt 32 n), foldl_toNibbles]
  have h16 : (16 : Nat) ^ 32 = 2 ^ 128 := by norm_num
  rw [Nat.zero_mul, Nat.zero_add, h16, Nat.mod_eq_of_lt h]

theorem parseHyphenated_grouped (A B C D E : List Char)
    (hA : A.length = 8) (hB : B.length = 4) (hC : C.length = 4)
    (hD : D.length = 4) (hE : E.length = 12) :
    parseHyphenated (A ++ '-' :: (B ++ '-' :: (C ++ '-' :: (D ++ '-' :: E)))) =
      parseHexDigits (A ++ (B ++ (C ++ (D ++ E)))) 0 := by
  have hlen : (A ++ '-' :: (B ++ '-' :: (C ++ '-' :: (D ++ '-' :: E)))).length = 36 := by
    simp [hA, hB, hC, hD, hE]
  unfold parseHyphenated
  rw [if_pos hlen]
  rw [List.drop_left' hA]
  simp only []
  rw [List.drop_left' hB]
  simp only []
  rw [List.drop_left' hC]
  simp only []
  rw [List.drop_left' hD]
  simp only []
  rw [List.take_left' hA, List.take_left' hB, List.take_left' hC, List.take_left' hD]

theorem uuid_roundtrip (n : Nat) (h : n < 2 ^ 128) :
    tryParseUuid (uuidToString n) = some n := by
  have hds : (uuidDigits n).length = 32 := by
    simp [uuidDigits, toNibbles_length]
  set ds := uuidDigits n with hdsdef
  have hA : (ds.take 8).length = 8 := by simp [hds]
  have hr : (ds.drop 8).length = 24 := by simp [hds]
  have hB : ((ds.drop 8).take 4).length = 4 := by simp [hds]
  have hr2 : ((ds.drop 8).drop 4).length = 20 := by simp [hds]
  have hC : (((ds.drop 8).drop 4).take 4).length = 4 := by simp [hds]
  have hr3 : (((ds.drop 8).drop 4).drop 4).length = 16 := by simp [hds]
  have hD : ((((ds.drop 8).drop 4).drop 4).take 4).length = 4 := by simp [hds]
  have hE : ((((ds.drop 8).drop 4).drop 4).drop 4).length = 12 := by simp [hds]
  have hre : (uuidToString n).toList = insertHyphens ds := rfl
  have hlen : (insertHyphens ds).length = 36 := by
    simp [insertHyphens, hds]
  have hgroups : insertHyphens ds =
      ds.take 8 ++ '-' :: ((ds.drop 8).take 4 ++ '-' ::
        (((ds.drop 8).drop 4).take 4 ++ '-' ::
          ((((ds.drop 8).drop 4).drop 4).take 4 ++ '-' ::
            (((ds.drop 8).drop 4).drop 4).drop 4))) := rfl
  have hjoin : ds.take 8 ++ ((ds.drop 8).take 4 ++
      ((((ds.drop 8).drop 4).take 4) ++
        ((((ds.drop 8).drop 4).drop 4).take 4 ++
          ((((ds.drop 8).drop 4).drop 4).drop 4)))) = ds := by
    rw [List.take_append_drop, List.take_append_drop, List.take_append_drop,
      List.take_append_drop]
  rw [tryParseUuid]
  simp only [hre]
  rw [if_neg (by omega), if_pos hlen]
  rw [hgroups, parseHyphenated_grouped _ _ _ _ _ hA hB hC hD hE, hjoin]
  exact parseHexDigits_uuidDigits n h

/-! Section: substring lemmas, keeping evaluation on served text local. -/

theorem hasSub_nil_pat (l : List Char) : hasSub l [] = true := by
  induction l with
  | nil => rfl
  | cons c cs ih => simp [hasSub, leadsWith]

theorem leadsWith_append_self (p r : List Char) : leadsWith p (p ++ r) = true := by
  induction p with
  | nil => rfl
  | cons c cs ih => simp [leadsWith, ih]

theorem leadsWith_append_of (p l b : List Char) (h : leadsWith p l = true) :
    leadsWith p (l ++ b) = true := by
  induction p generalizing l with
  | nil => rfl
  | cons c cs ih =>
    cases l with
    | nil => simp [leadsWith] at h
    | cons x xs =>
      simp only [leadsWith, Bool.and_eq_true, beq_iff_eq] at h
      simp [leadsWith, h.1, ih xs h.2]

theorem hasSub_append_left (a b pat : List Char) (h : hasSub a pat = true) :
    hasSub (a ++ b) pat = true := by
  induction a with
  | nil =>
    have : pat = [] := by simpa [hasSub, List.isEmpty_iff] using h
    subst this
    exact hasSub_nil_pat b
  | cons c cs ih =>
    simp only [hasSub, Bool.or_eq_true] at h
    rcases h with h | h
    · simp only [List.cons_append, hasSub, Bool.or_eq_true]
      exact Or.inl (leadsWith_append_of pat (c :: cs) b h)
    · simp only [List.cons_append, hasSub, Bool.or_eq_true]
      exact Or.inr (ih h)

theorem hasSub_append_right (a b pat : List Char) (h : hasSub b pat = true) :
    hasSub (a ++ b) pat = true := by
  induction a with
  | nil => simpa using h
  | cons c cs ih => simp [hasSub, ih]

theorem hasSub_self_append (p r : List Char) : hasSub (p ++ r) p = true := by
  cases p with
  | nil => simpa using hasSub_nil_pat r
  | cons c cs =>
    have h := leadsWith_append_self (c :: cs) r
    rw [List.cons_append] at h
    simp [hasSub, h]

theorem strContains_append_left (s t pat : String) (h : strContains s pat = true) :
    strContains (s ++ t) pat = true := by
  simp only [strContains, String.toList, String.data_append]
  exact hasSub_append_left _ _ _ h

theorem strContains_append_right (s t pat : String) (h : strContains t pat = true) :
    strContains (s ++ t) pat = true := by
  simp only [strContains, String.toList, String.data_append]
  exact hasSub_append_right _ _ _ h

theorem strContains_self_append (s t : String) : strContains (s ++ t) s = true := by
  simp only [strContains, String.toList, String.data_append]
  exact hasSub_self_append _ _

theorem scalarHtml_grouped : scalarHtml = scalarHtmlPre ++ (openApiJson ++ scalarHtmlPost) := by
  rw [scalarHtml, String.append_assoc]

theorem strContains_scalarHtml_of_api (pat : String)
    (h : strContains openApiJson pat = true) : strContains scalarHtml pat = true := by
  rw [scalarHtml_grouped]
  exact strContains_append_right _ _ _ (strContains_append_left _ _ _ h)

/-! Section: claim theorems. -/

/-- C1: for every valid non-nil 128-bit identifier, the user-lookup
handler returns status 200 with the serialized user record as body;
the `uuid` field of that record is exactly the canonical string of
the requested identifier (and parses back to it, a string
round-trip), and the remaining fields carry the fixed values. -/
theorem C1_lookup_returns_requested_uuid (n : Nat) (h128 : n < 2 ^ 128) (hnz : n ≠ 0) :
    get_user_by_id n =
      { status := 200, contentType := some textPlain,
        body := renderObj (userJsonFields (mkUser n)) } ∧
    (userJsonFields (mkUser n)).lookup "uuid" = some (jsonQuote (uuidToString n)) ∧
    tryParseUuid (uuidToString n) = some n ∧
    (userJsonFields (mkUser n)).lookup "firstName" = some (jsonQuote "Jane") ∧
    (userJsonFields (mkUser n)).lookup "lastName" = some (jsonQuote "Doe") ∧
    (userJsonFields (mkUser n)).lookup "email" = some (jsonQuote "jane.doe@example.com") ∧
    (userJsonFields (mkUser n)).lookup "enabled" = some "true" ∧
    (userJsonFields (mkUser n)).lookup "activated" = some "true" := by
  refine ⟨?_, ?_, uuid_roundtrip n h128, ?_, ?_, ?_, ?_, ?_⟩
  · simp [get_user_by_id, hnz, respondWithSerialized, serdeJsonToString]
  all_goals simp [userJsonFields, mkUser, List.lookup, jsonBool]

/-- C1 witness: the round-trip conclusion at a concrete identifier. -/
theorem C1_witness :
    tryParseUuid (uuidToString 0x550e8400e29b41d4a716446655440000) =
      some 0x550e8400e29b41d4a716446655440000 :=
  (C1_lookup_returns_requested_uuid 0x550e8400e29b41d4a716446655440000
    (by decide) (by decide)).2.2.1

/-- C2: the all-zero identifier produces a 404 with the exact
plain-text body, both at the handler and through the router on the
canonical nil UUID string; the early return in the embedding mirrors
`main.rs:64-66`, where the 404 is produced before any `User` is
built. -/
theorem C2_nil_uuid_not_found :
    get_user_by_id 0 =
      { status := 404, contentType := some textPlain, body := "User not found" } ∧
    dispatch ["users", "00000000-0000-0000-0000-000000000000"] =
      { status := 404, contentType := some textPlain, body := "User not found" } := by
  decide

set_option maxRecDepth 10000 in
/-- C3: the serialized `User` object uses lower-camel-case field
names for every user value, and at the specific example identifier
the 200 body is exactly the expected JSON object with all six
fields. -/
theorem C3_camel_case_fields_and_exact_body :
    (∀ u : User, (userJsonFields u).map Prod.fst =
      ["uuid", "firstName", "lastName", "email", "enabled", "activated"]) ∧
    get_user_by_id 0x550e8400e29b41d4a716446655440000 =
      { status := 200, contentType := some textPlain,
        body := "\x7b\"uuid\":\"550e8400-e29b-41d4-a716-446655440000\",\"firstName\":\"Jane\",\"lastName\":\"Doe\",\"email\":\"jane.doe@example.com\",\"enabled\":true,\"activated\":true\x7d" } :=
  ⟨fun _ => rfl, by decide⟩

set_option maxRecDepth 10000 in
/-- C4: contrary to the claim, the 200 success response does not
carry a JSON content-type header: the handler returns the serialized
string through the axum `(StatusCode, String)` conversion
(`main.rs:76`), which sets `text/plain; charset=utf-8`, while the
OpenAPI metadata generated from `main.rs:52-62` advertises the 200
body under `application/json`. -/
theorem C4_success_content_type_is_text_plain :
    (get_user_by_id 0x550e8400e29b41d4a716446655440000).status = 200 ∧
    (get_user_by_id 0x550e8400e29b41d4a716446655440000).contentType =
      some "text/plain; charset=utf-8" ∧
    userLookupOperation.responses.map ResponseSpec.contentType = ["application/json"] := by
  decide

set_option maxRecDepth 10000 in
/-- C5 counterexample: the 32-hex simple form is not the canonical
hyphenated form (32 characters, no hyphen), yet the route does not
reject it: the handler runs and answers 200. -/
theorem C5_counterexample_simple_form_reaches_handler :
    "550e8400e29b41d4a716446655440000".toList.length = 32 ∧
    strContains "550e8400e29b41d4a716446655440000" "-" = false ∧
    dispatch ["users", "550e8400e29b41d4a716446655440000"] =
      get_user_by_id 0x550e8400e29b41d4a716446655440000 ∧
    (dispatch ["users", "550e8400e29b41d4a716446655440000"]).status = 200 := by
  decide

/-- C5 amended: a path segment the UUID parser rejects in all its
accepted formats (simple, hyphenated, braced, urn) is answered by the
routing layer with the 400 rejection and the handler body never
runs. -/
theorem C5_unparsable_segment_rejected (s : String) (h : tryParseUuid s = none) :
    dispatch ["users", s] = pathRejection ∧ pathRejection.status = 400 := by
  constructor
  · simp [dispatch, routeFor, h]
  · rfl

/-- C5 witness: the spec example segment `not-a-uuid` is rejected
with a 400. -/
theorem C5_witness :
    dispatch ["users", "not-a-uuid"] = pathRejection ∧ pathRejection.status = 400 :=
  C5_unparsable_segment_rejected "not-a-uuid" (by decide)

/-- C6: the error arm of the serialization match is a 500 with the
exact body `Unknown error`; a 500 arises exactly from a failed
serialization, and since serializing the fixed-shape record never
fails, the handler statuses are exhaustively 404 for nil and 200
otherwise. -/
theorem C6_serialization_failure_gives_500 :
    (∀ e : String, respondWithSerialized (Except.error e) =
      { status := 500, contentType := some textPlain, body := "Unknown error" }) ∧
    (∀ r : Except String String,
      (respondWithSerialized r).status = 500 ↔ ∃ e, r = Except.error e) ∧
    (∀ n : Nat, (get_user_by_id n).status = if n = 0 then 404 else 200) := by
  refine ⟨fun e => rfl, fun r => ?_, fun n => ?_⟩
  · cases r <;> simp [respondWithSerialized]
  · by_cases hn : n = 0 <;>
      simp [get_user_by_id, hn, respondWithSerialized, serdeJsonToString]

/-- C7 counterexample: the generated document describes exactly one
path, `/business/\x7bbusinessId\x7d/users/\x7buserId\x7d`; it
contains no entry for the served route `/users/\x7buserId\x7d`, so
the claim as stated fails. -/
theorem C7_counterexample_documented_path_differs :
    apiDocOperations.map OperationSpec.path =
      ["/business/\x7bbusinessId\x7d/users/\x7buserId\x7d"] ∧
    (apiDocOperations.map OperationSpec.path).contains "/users/\x7buserId\x7d" = false := by
  decide

set_option maxRecDepth 10000 in
/-- C7 amended: the generated machine-readable description covers the
user-lookup operation under the documented path
`/business/\x7bbusinessId\x7d/users/\x7buserId\x7d` — its two
parameters, its 200 response schema reference, and example values for
each of the six `User` fields — and the rendered JSON document is
embedded in the served page. -/
theorem C7_doc_covers_documented_route :
    apiDocOperations = [userLookupOperation] ∧
    userLookupOperation.method = "get" ∧
    userLookupOperation.path = "/business/\x7bbusinessId\x7d/users/\x7buserId\x7d" ∧
    userLookupOperation.params.map ParamSpec.name = ["businessId", "userId"] ∧
    userLookupOperation.responses.map ResponseSpec.schemaRef = ["#/components/schemas/User"] ∧
    userSchemaFields.map FieldSchema.name =
      ["uuid", "firstName", "lastName", "email", "enabled", "activated"] ∧
    userSchemaFields.map FieldSchema.exampleVal =
      [jsonQuote "550e8400-e29b-41d4-a716-446655440000", jsonQuote "Jane", jsonQuote "Doe",
        jsonQuote "jane.doe@example.com", "true", "true"] ∧
    strContains scalarHtml openApiJson = true := by
  refine ⟨rfl, rfl, rfl, by decide, by decide, by decide, by decide, ?_⟩
  rw [scalarHtml_grouped]
  exact strContains_append_right _ _ _ (strContains_self_append _ _)

set_option maxRecDepth 10000 in
/-- C8: `GET /api` answers 200 with the HTML page, which contains the
`api-reference` element id, the `laserwave` theme configuration, the
content-delivery-network script reference, and the embedded API
description with the documented business/users path and both
parameter names. -/
theorem C8_api_page_contents :
    dispatch ["api"] = scalarResponse ∧
    scalarResponse.status = 200 ∧
    scalarResponse.contentType = some "text/html; charset=utf-8" ∧
    strContains scalarHtml "api-reference" = true ∧
    strContains scalarHtml "\x7b\"theme\":\"laserwave\"\x7d" = true ∧
    strContains scalarHtml "https://cdn.jsdelivr.net/npm/@scalar/api-reference" = true ∧
    strContains scalarHtml "/business/\x7bbusinessId\x7d/users/\x7buserId\x7d" = true ∧
    strContains scalarHtml "\"businessId\"" = true ∧
    strContains scalarHtml "\"userId\"" = true := by
  refine ⟨rfl, rfl, rfl, ?_, ?_, ?_, ?_, ?_, ?_⟩
  · rw [scalarHtml_grouped]
    exact strContains_append_left _ _ _ (by decide)
  · rw [scalarHtml_grouped]
    exact strContains_append_left _ _ _ (by decide)
  · rw [scalarHtml_grouped]
    exact strContains_append_right _ _ _ (strContains_append_right _ _ _ (by decide))
  · exact strContains_scalarHtml_of_api _ (by decide)
  · exact strContains_scalarHtml_of_api _ (by decide)
  · exact strContains_scalarHtml_of_api _ (by decide)

/-- C9: the 500 branch is unreachable: serializing the record the
handler builds always succeeds (four strings and two booleans under
fixed names; `serde_json` has no failing case on this shape), so the
handler status is 404 for nil and 200 for every other identifier —
never 500. -/
theorem C9_500_branch_unreachable :
    (∀ n : Nat, serdeJsonToString (mkUser n) =
      Except.ok (renderObj (userJsonFields (mkUser n)))) ∧
    (∀ n : Nat, (get_user_by_id n).status = if n = 0 then 404 else 200) := by
  refine ⟨fun n => rfl, fun n => ?_⟩
  by_cases hn : n = 0 <;>
    simp [get_user_by_id, hn, respondWithSerialized, serdeJsonToString]

/-- C10: the path advertised in the documentation matches no
registered route — for any two segments in the business and user
positions the router falls through to the default 404 with an empty
body — while the `businessId` name occurs only in the documentation
metadata. -/
theorem C10_business_route_unregistered (b u : String) :
    routeFor ["business", b, "users", u] = RouteTarget.unmatched ∧
    dispatch ["business", b, "users", u] = notFoundResponse ∧
    notFoundResponse.status = 404 ∧
    notFoundResponse.body = "" ∧
    userLookupOperation.params.map ParamSpec.name = ["businessId", "userId"] := by
  refine ⟨rfl, rfl, rfl, rfl, rfl⟩
